import Mathlib

/-!
Shallow embedding of the STK500v2 host-side driver (`src/programmer/stk500v2.rs`,
`src/errors.rs`, `src/programmer/mod.rs`, `src/specs/mod.rs`).

Bytes are modelled as `Nat` (all Rust `u8` values are below 256; the XOR
checksum of values below 256 stays below 256, so no wraparound arises;
`u16`/`u32` casts are written as explicit `% 65536` / `% 4294967296`).
Fallible Rust code returns `Except`; a Rust panic (out-of-bounds slice or
index) is modelled as `none` of an outer `Option`.  The serial port is
modelled as a `Port` record: `inbound` is the byte stream the device will
deliver, `outbound` the list of frames written by the driver.
-/

set_option maxRecDepth 8000

namespace Avrisp

/-- `errors::ErrorKind` (src/errors.rs lines 80-89).  Every variant is a
payload-free variant in the source; in particular `StatusError` carries no
data.  `Io` abstracts the `Io(io::Error)` payload away. -/
inductive ErrorKind where
  | AnswerIdError
  | StatusError
  | SequenceError
  | ChecksumError
  | Io
  | FromUtf8Error
  | UnknownProgrammer
deriving DecidableEq, Repr

/-- `Message::calc_checksum`: XOR of all bytes.  The source seeds the fold
with `bytes[0]` (an empty slice would panic there); every call site passes a
slice of length at least 5, and the empty case is mapped to 0. -/
def calc_checksum (bytes : List Nat) : Nat :=
  match bytes with
  | [] => 0
  | b :: rest => rest.foldl Nat.xor b

/-- The maximum body size of a message (`Message::MAX_BODY_SIZE`). -/
def MAX_BODY_SIZE : Nat := 275

/-- `Message::MAX_SIZE = MAX_BODY_SIZE + CHECKSUM_SIZE + HEADER_SIZE`. -/
def MAX_SIZE : Nat := MAX_BODY_SIZE + 1 + 5

/-- The checksummed prefix of a frame as laid out by `Message::new`:
start marker 0x1B, sequence byte, body length as big-endian `u16`,
token 0x0E, then the body. -/
def messageFrame (seq : Nat) (body : List Nat) : List Nat :=
  0x1B :: seq :: (body.length % 65536 / 256) :: (body.length % 65536 % 256) :: 0x0E :: body

/-- A complete encoded frame: the checksummed prefix followed by its
checksum byte.  These are exactly the bytes `write_message` puts on the
wire (`Message::as_slice` of a freshly built message). -/
def encodeFrame (seq : Nat) (body : List Nat) : List Nat :=
  messageFrame seq body ++ [calc_checksum (messageFrame seq body)]

/-- The full 281-byte `MessageBuffer` built by `Message::new`: the encoded
frame followed by the untouched zero bytes of the array. -/
def mkBuffer (seq : Nat) (body : List Nat) : List Nat :=
  encodeFrame seq body ++ List.replicate (MAX_SIZE - (body.length + 6)) 0

/-- `Message` (src/programmer/stk500v2.rs lines 148-151): a 281-byte buffer
holding one framed message. -/
structure Message where
  buffer : List Nat
deriving DecidableEq, Repr

namespace Message

/-- `Message::new` (lines 169-181).  For a body longer than 275 bytes the
source writes past the fixed 281-byte array and panics, modelled as `none`. -/
def new (seq : Nat) (body : List Nat) : Option Message :=
  if body.length ≤ MAX_BODY_SIZE then some ⟨mkBuffer seq body⟩ else none

/-- `Message::get_sequence`: the byte at `SEQ_PSITION = 1`. -/
def get_sequence (m : Message) : Nat := m.buffer.getD 1 0

/-- `Message::get_body_size`: big-endian `u16` from positions 2 and 3. -/
def get_body_size (m : Message) : Nat :=
  256 * m.buffer.getD 2 0 + m.buffer.getD 3 0

/-- `Message::get_end_index`: `BODY_START_POSITION + body size`. -/
def get_end_index (m : Message) : Nat := 5 + m.get_body_size

/-- `Message::body_slice`: `buffer[5..end_index]`. -/
def body_slice (m : Message) : List Nat :=
  (m.buffer.take m.get_end_index).drop 5

/-- `Message::as_slice`: `buffer[..=end_index]`, the bytes actually written
to the port. -/
def as_slice (m : Message) : List Nat := m.buffer.take (m.get_end_index + 1)

/-- `TryFrom<MessageBuffer> for Message` (lines 219-235): reads the declared
body size, indexes the checksum byte at `end_index` (a declared size above
275 puts that index past the 281-byte array: panic, modelled `none`) and
compares it with the recomputed checksum of the preceding bytes. -/
def tryFrom (buffer : List Nat) : Option (Except ErrorKind Message) :=
  let body_size := 256 * buffer.getD 2 0 + buffer.getD 3 0
  let end_index := 5 + body_size
  match buffer[end_index]? with
  | none => none
  | some crc =>
    if crc ≠ calc_checksum (buffer.take end_index) then
      some (.error .ChecksumError)
    else
      some (.ok ⟨buffer⟩)

end Message

/-- The serial transport, reduced to what the driver observes: the byte
stream still to be delivered by the device (`inbound`) and the frames the
driver has written (`outbound`, oldest first). -/
structure Port where
  inbound : List Nat
  outbound : List (List Nat)
deriving DecidableEq, Repr

/-- `STK500v2::read_message` (lines 313-325) over the inbound byte stream:
reads the 5 header bytes into a zeroed 281-byte buffer (a short stream is a
blocking-read timeout: I/O error), computes the declared body size, slices
the buffer up to `HEADER_SIZE + body_size + CHECKSUM_SIZE` (a declared size
above 275 puts that slice past the 281-byte array: panic, modelled `none`),
reads the remaining bytes and validates via `Message.tryFrom`.  Returns the
decoded message together with the unconsumed stream. -/
def read_message (input : List Nat) : Option (Except ErrorKind (Message × List Nat)) :=
  if input.length < 5 then some (.error .Io)
  else
    let body_size := 256 * input.getD 2 0 + input.getD 3 0
    let endIdx := 5 + body_size + 1
    if MAX_SIZE < endIdx then none
    else if input.length < endIdx then some (.error .Io)
    else
      match Message.tryFrom (input.take endIdx ++ List.replicate (MAX_SIZE - endIdx) 0) with
      | none => none
      | some (.error e) => some (.error e)
      | some (.ok m) => some (.ok (m, input.drop endIdx))

/-- `SequenceGenerator` (lines 259-277): a single wrapping `u8` counter.
Incremented by one for each message sent, wraps to zero after 0xFF. -/
structure SequenceGenerator where
  count : Nat
deriving DecidableEq, Repr

namespace SequenceGenerator

/-- `SequenceGenerator::new`: the counter starts at 0. -/
def new : SequenceGenerator := ⟨0⟩

/-- `Iterator::next` for `SequenceGenerator`: returns `Some(count)` and
increments the counter with wraparound (`u8::wrapping_add(1)`). -/
def next (g : SequenceGenerator) : Option Nat × SequenceGenerator :=
  (some g.count, ⟨(g.count + 1) % 256⟩)

end SequenceGenerator

/-- The generator state after `n` calls to `next`, starting from `new`. -/
def genAt : Nat → SequenceGenerator
  | 0 => SequenceGenerator.new
  | n + 1 => ((genAt n).next).2

/-- The value produced by the `n`-th call (0-based) to `next`. -/
def seqNth (n : Nat) : Option Nat := ((genAt n).next).1

/-- `specs::Memory`: geometry of one memory segment. -/
structure Memory where
  start : Nat
  size : Nat
  page_size : Nat
  mode : Nat
  delay : Nat
deriving DecidableEq, Repr

/-- `specs::Signature`: a 3-byte MCU signature. -/
structure Signature where
  bytes : Nat × Nat × Nat
deriving DecidableEq, Repr

/-- `specs::IspCommand`: a low-level 4-byte ISP opcode. -/
structure IspCommand where
  b0 : Nat
  b1 : Nat
  b2 : Nat
  b3 : Nat
deriving DecidableEq, Repr

/-- `specs::Specs`: per-chip programmer parameters. -/
structure Specs where
  timeout : Nat
  stab_delay : Nat
  cmd_exe_delay : Nat
  synch_loops : Nat
  byte_delay : Nat
  pool_value : Nat
  pool_index : Nat
  pre_delay : Nat
  post_delay : Nat
  reset_polarity : Bool
  erase_poll_method : Nat
  erase_delay : Nat
  signature : Signature
  fuse_poll_index : Nat
  lock_poll_index : Nat
  osccal_poll_index : Nat
  signature_poll_index : Nat
  flash : Memory
  eeprom : Memory
deriving DecidableEq, Repr

/-- `programmer::Variant` (src/programmer/mod.rs lines 23-27). -/
inductive Variant where
  | STK500_V2
  | AVRISP_2
deriving DecidableEq, Repr

/-- The character codes of the string literal `"STK500_2"`. -/
def STK500_2_ID : List Nat := [83, 84, 75, 53, 48, 48, 95, 50]

/-- The character codes of the string literal `"AVRISP_2"`. -/
def AVRISP_2_ID : List Nat := [65, 86, 82, 73, 83, 80, 95, 50]

/-- `TryFrom<String> for Variant` (mod.rs lines 38-47), with strings as
lists of unicode code points; `none` is the `UnknownProgrammer` error
(a payload-free struct in the source). -/
def Variant.tryFromString (s : List Nat) : Option Variant :=
  if s = STK500_2_ID then some .STK500_V2
  else if s = AVRISP_2_ID then some .AVRISP_2
  else none

/-- Whether a byte is a UTF-8 continuation byte (`0x80..=0xBF`). -/
def isCont (b : Nat) : Bool := decide (0x80 ≤ b ∧ b ≤ 0xBF)

/-- `String::from_utf8` of the Rust standard library, embedded as a strict
RFC 3629 decoder over byte lists: returns the decoded unicode code points,
or `none` for ill-formed input (truncated sequences, overlong forms,
surrogates and out-of-range values are rejected, as in the library). -/
def utf8_decode : List Nat → Option (List Nat)
  | [] => some []
  | b :: t =>
    if b ≤ 0x7F then
      match utf8_decode t with
      | some r => some (b :: r)
      | none => none
    else if 0xC2 ≤ b ∧ b ≤ 0xDF then
      match t with
      | b1 :: t1 =>
        if isCont b1 then
          match utf8_decode t1 with
          | some r => some (((b - 0xC0) * 64 + (b1 - 0x80)) :: r)
          | none => none
        else none
      | [] => none
    else if 0xE0 ≤ b ∧ b ≤ 0xEF then
      match t with
      | b1 :: b2 :: t2 =>
        let ok1 : Bool :=
          if b = 0xE0 then decide (0xA0 ≤ b1 ∧ b1 ≤ 0xBF)
          else if b = 0xED then decide (0x80 ≤ b1 ∧ b1 ≤ 0x9F)
          else isCont b1
        if ok1 && isCont b2 then
          match utf8_decode t2 with
          | some r => some (((b - 0xE0) * 4096 + (b1 - 0x80) * 64 + (b2 - 0x80)) :: r)
          | none => none
        else none
      | _ => none
    else if 0xF0 ≤ b ∧ b ≤ 0xF4 then
      match t with
      | b1 :: b2 :: b3 :: t3 =>
        let ok1 : Bool :=
          if b = 0xF0 then decide (0x90 ≤ b1 ∧ b1 ≤ 0xBF)
          else if b = 0xF4 then decide (0x80 ≤ b1 ∧ b1 ≤ 0x8F)
          else isCont b1
        if ok1 && isCont b2 && isCont b3 then
          match utf8_decode t3 with
          | some r =>
            some (((b - 0xF0) * 262144 + (b1 - 0x80) * 4096
              + (b2 - 0x80) * 64 + (b3 - 0x80)) :: r)
          | none => none
        else none
      | _ => none
    else none

/-- `STK500v2` (lines 279-283): the transport session.  The serial handle is
replaced by the observable `Port`; opening and configuring the port lives
outside the model. -/
structure STK500v2 where
  port : Port
  sequencer : SequenceGenerator
  specs : Specs
deriving DecidableEq, Repr

namespace STK500v2

/-- `STK500v2::write_message` (lines 307-311): writes the frame bytes and
flushes. -/
def write_message (prog : STK500v2) (msg : Message) : STK500v2 :=
  { prog with port := ⟨prog.port.inbound, prog.port.outbound ++ [msg.as_slice]⟩ }

/-- The response-validation tail of `STK500v2::command` (lines 335-344):
sequence, then answer id (`body_slice()[0]`, panics on an empty body), then
status (`body_slice()[1]`, panics on a 1-byte body, `CmdOk = 0x00`). -/
def checkResponse (seq cmd : Nat) (m : Message) (prog2 : STK500v2) :
    Option (Except ErrorKind Message × STK500v2) :=
  if seq ≠ m.get_sequence then some (.error .SequenceError, prog2)
  else
    match m.body_slice[0]? with
    | none => none
    | some b0 =>
      if cmd ≠ b0 then some (.error .AnswerIdError, prog2)
      else
        match m.body_slice[1]? with
        | none => none
        | some b1 =>
          if b1 ≠ 0 then some (.error .StatusError, prog2)
          else some (.ok m, prog2)

def command (prog : STK500v2) (body : List Nat) :
    Option (Except ErrorKind Message × STK500v2) :=
  match prog.sequencer.next with
  | (none, _) => none
  | (some seq, sequencer') =>
    match body[0]? with
    | none => none
    | some cmd =>
      match Message.new seq body with
      | none => none
      | some sent_msg =>
        let prog1 := write_message { prog with sequencer := sequencer' } sent_msg
        match read_message prog1.port.inbound with
        | none => none
        | some (.error e) => some (.error e, prog1)
        | some (.ok (read_msg, rest)) =>
          checkResponse seq cmd read_msg { prog1 with port := ⟨rest, prog1.port.outbound⟩ }

end STK500v2

namespace STK500v2

/-- `STK500v2::get_param` (lines 362-376): sends `GetParameter = 0x03` with
the parameter id; after the round trip it re-checks answer id and status,
then returns `body_slice()[2]` (panics when the body has only 2 bytes). -/
def get_param (prog : STK500v2) (p : Nat) : Option (Except ErrorKind Nat × STK500v2) :=
  match prog.command [3, p] with
  | none => none
  | some (.error e, prog') => some (.error e, prog')
  | some (.ok msg, prog') =>
    match msg.body_slice[0]? with
    | none => none
    | some b0 =>
      if b0 ≠ 3 then some (.error .AnswerIdError, prog')
      else
        match msg.body_slice[1]? with
        | none => none
        | some b1 =>
          if b1 ≠ 0 then some (.error .StatusError, prog')
          else
            match msg.body_slice[2]? with
            | none => none
            | some v => some (.ok v, prog')

/-- `STK500v2::read_programmer_signature` (lines 378-383): sign-on
(`SignOn = 0x01`); `body_slice()[3..]` (a slice that panics when the body
is shorter than 3 bytes) is decoded as UTF-8 and mapped to a `Variant`. -/
def read_programmer_signature (prog : STK500v2) :
    Option (Except ErrorKind Variant × STK500v2) :=
  match prog.command [1] with
  | none => none
  | some (.error e, prog') => some (.error e, prog')
  | some (.ok msg, prog') =>
    if msg.body_slice.length < 3 then none
    else
      match utf8_decode (msg.body_slice.drop 3) with
      | none => some (.error .FromUtf8Error, prog')
      | some s =>
        match Variant.tryFromString s with
        | some v => some (.ok v, prog')
        | none => some (.error .UnknownProgrammer, prog')

end STK500v2

/-- `IspMode` (lines 408-414): owns, by move, the transport session that
has entered ISP mode. -/
structure IspMode where
  prog : STK500v2
deriving DecidableEq, Repr

namespace IspMode

/-- `IspMode::load_address` (lines 417-422): `LoadAddress = 0x06` followed
by the address as big-endian `u32`. -/
def load_address (isp : IspMode) (address : Nat) :
    Option (Except ErrorKind Unit × IspMode) :=
  let a := address % 4294967296
  let dst_addr := [6, a / 16777216 % 256, a / 65536 % 256, a / 256 % 256, a % 256]
  match isp.prog.command dst_addr with
  | none => none
  | some (.error e, p) => some (.error e, ⟨p⟩)
  | some (.ok _, p) => some (.ok (), ⟨p⟩)

/-- `IspMode::read_flash_command` (lines 424-440): `ReadFlash = 0x14`, the
read size as big-endian `u16`, and `READ_FLASH_LOW.0 = 0x20`; on success
the source copies `body_slice()[2..size + 2]` (a slice that panics when the
body is shorter) into the destination page, returned here as a list. -/
def read_flash_command (isp : IspMode) (size : Nat) :
    Option (Except ErrorKind (List Nat) × IspMode) :=
  let sz := size % 65536
  match isp.prog.command [0x14, sz / 256, sz % 256, 0x20] with
  | none => none
  | some (.error e, p) => some (.error e, ⟨p⟩)
  | some (.ok msg, p) =>
    if size + 2 ≤ msg.body_slice.length then
      some (.ok ((msg.body_slice.drop 2).take size), ⟨p⟩)
    else none

/-- `IspMode::read_fuse` (lines 459-469): `ReadFuse = 0x18`, the fuse poll
index from `Specs`, the 4 opcode bytes; returns `body_slice()[2]` (panics
when the body has only 2 bytes). -/
def read_fuse (isp : IspMode) (cmd : IspCommand) :
    Option (Except ErrorKind Nat × IspMode) :=
  match isp.prog.command
      [0x18, isp.prog.specs.fuse_poll_index, cmd.b0, cmd.b1, cmd.b2, cmd.b3] with
  | none => none
  | some (.error e, p) => some (.error e, ⟨p⟩)
  | some (.ok msg, p) =>
    match msg.body_slice[2]? with
    | none => none
    | some v => some (.ok v, ⟨p⟩)

/-- The page loop of `FlashRead::read` (lines 480-482), one page per step:
`rem` is the not-yet-filled byte count of the destination buffer, `s + 1`
the page size.  A non-zero remainder smaller than a page makes the slice
`buffer[addr..addr + size]` overrun the buffer: panic, `none`. -/
def readFlashPages (s : Nat) (isp : IspMode) (rem : Nat) :
    Option (Except ErrorKind (List Nat) × IspMode) :=
  if _h0 : rem = 0 then some (.ok [], isp)
  else if _hs : rem < s + 1 then none
  else
    match isp.read_flash_command (s + 1) with
    | none => none
    | some (.error e, i) => some (.error e, i)
    | some (.ok page, i) =>
      match readFlashPages s i (rem - (s + 1)) with
      | none => none
      | some (.error e, j) => some (.error e, j)
      | some (.ok tailPages, j) => some (.ok (page ++ tailPages), j)
termination_by rem
decreasing_by omega

/-- `FlashRead::read` for `IspMode` (lines 472-485): reads the flash page
size from `Specs`, loads address 0 once (the firmware auto-increments), then
iterates the page loop over the destination length.  A zero page size makes
`step_by(0)` panic: `none`. -/
def flash_read (isp : IspMode) (bufLen : Nat) :
    Option (Except ErrorKind (List Nat) × IspMode) :=
  let size := isp.prog.specs.flash.page_size
  match isp.load_address 0 with
  | none => none
  | some (.error e, i) => some (.error e, i)
  | some (.ok _, i) =>
    match size with
    | 0 => none
    | s + 1 => readFlashPages s i bufLen

end IspMode

/-- The request frames written by `n` consecutive read-flash page commands
of the given size, starting at sequence counter `c`. -/
def readFlashSent (size : Nat) : Nat → Nat → List (List Nat)
  | _, 0 => []
  | c, n + 1 =>
    encodeFrame c [0x14, size % 65536 / 256, size % 65536 % 256, 0x20]
      :: readFlashSent size ((c + 1) % 256) n

/-- The byte stream of a well-behaved device answering consecutive
read-flash page commands: for each page `d`, an `Ok` answer frame carrying
`d` as its payload. -/
def readFlashResponses : Nat → List (List Nat) → List Nat
  | _, [] => []
  | c, d :: ds => encodeFrame c (0x14 :: 0 :: d) ++ readFlashResponses ((c + 1) % 256) ds

/-- An all-zero memory descriptor, used for concrete runs. -/
def memory0 : Memory := ⟨0, 0, 0, 0, 0⟩

/-- An all-zero configuration record, used for concrete runs (no command
modelled here reads any of its fields). -/
def specs0 : Specs :=
  ⟨0, 0, 0, 0, 0, 0, 0, 0, 0, false, 0, 0, ⟨(0, 0, 0)⟩, 0, 0, 0, 0, memory0, memory0⟩

/-- A fresh session whose device will answer with one encoded frame of
sequence `rseq` and body `rbody`. -/
def progResp (rseq : Nat) (rbody : List Nat) : STK500v2 :=
  ⟨⟨encodeFrame rseq rbody, []⟩, ⟨0⟩, specs0⟩

/-- The page contents returned by the device in the concrete 4-page run:
four distinct 256-byte pages. -/
def datasC6 : List (List Nat) := List.replicate 4 (List.replicate 256 0)

/-- A configuration whose flash page size is 256 bytes. -/
def specsC6 : Specs := { specs0 with flash := { memory0 with page_size := 256 } }

/-- A fresh ISP session whose device will answer one load-address command
and four read-flash page commands. -/
def ispC6 : IspMode :=
  ⟨⟨⟨encodeFrame 0 [6, 0] ++ readFlashResponses ((0 + 1) % 256) datasC6, []⟩,
    ⟨0⟩, specsC6⟩⟩

/-! Theorems: frame-layout facts, exchange lemmas and the claims. -/

theorem messageFrame_length (seq : Nat) (body : List Nat) :
    (messageFrame seq body).length = body.length + 5 := by
  simp [messageFrame]

theorem encodeFrame_length (seq : Nat) (body : List Nat) :
    (encodeFrame seq body).length = body.length + 6 := by
  simp [encodeFrame, messageFrame]

theorem mkBuffer_length (seq : Nat) (body : List Nat)
    (h : body.length ≤ MAX_BODY_SIZE) :
    (mkBuffer seq body).length = MAX_SIZE := by
  simp [MAX_BODY_SIZE] at h
  simp [mkBuffer, encodeFrame, messageFrame, MAX_SIZE, MAX_BODY_SIZE]
  omega

theorem mkBuffer_getD_one (seq : Nat) (body : List Nat) :
    (mkBuffer seq body).getD 1 0 = seq := by
  simp [mkBuffer, encodeFrame, messageFrame]

theorem mkBuffer_getD_two (seq : Nat) (body : List Nat) :
    (mkBuffer seq body).getD 2 0 = body.length % 65536 / 256 := by
  simp [mkBuffer, encodeFrame, messageFrame]

theorem mkBuffer_getD_three (seq : Nat) (body : List Nat) :
    (mkBuffer seq body).getD 3 0 = body.length % 65536 % 256 := by
  simp [mkBuffer, encodeFrame, messageFrame]

/-- The two length bytes written by `Message::new` recombine to the body
length whenever it fits the protocol maximum. -/
theorem mkBuffer_body_size (seq : Nat) (body : List Nat)
    (h : body.length ≤ MAX_BODY_SIZE) :
    256 * ((mkBuffer seq body).getD 2 0) + (mkBuffer seq body).getD 3 0
      = body.length := by
  rw [mkBuffer_getD_two, mkBuffer_getD_three]
  simp [MAX_BODY_SIZE] at h
  rw [Nat.mod_eq_of_lt (by omega)]
  exact Nat.div_add_mod _ 256

theorem mkBuffer_take_frame (seq : Nat) (body : List Nat) :
    (mkBuffer seq body).take (5 + body.length) = messageFrame seq body := by
  rw [mkBuffer, encodeFrame, List.append_assoc]
  exact List.take_left' (by rw [messageFrame_length]; omega)

theorem mkBuffer_getElem?_checksum (seq : Nat) (body : List Nat) :
    (mkBuffer seq body)[5 + body.length]? =
      some (calc_checksum (messageFrame seq body)) := by
  rw [mkBuffer, encodeFrame, List.append_assoc]
  rw [List.getElem?_append_right (by rw [messageFrame_length]; omega)]
  rw [messageFrame_length]
  have h0 : 5 + body.length - (body.length + 5) = 0 := by omega
  rw [h0]
  simp

theorem new_eq (seq : Nat) (body : List Nat) (h : body.length ≤ MAX_BODY_SIZE) :
    Message.new seq body = some ⟨mkBuffer seq body⟩ := by
  simp [Message.new, h]

theorem get_sequence_mkBuffer (seq : Nat) (body : List Nat) :
    Message.get_sequence ⟨mkBuffer seq body⟩ = seq :=
  mkBuffer_getD_one seq body

theorem get_body_size_mkBuffer (seq : Nat) (body : List Nat)
    (h : body.length ≤ MAX_BODY_SIZE) :
    Message.get_body_size ⟨mkBuffer seq body⟩ = body.length :=
  mkBuffer_body_size seq body h

theorem body_slice_mkBuffer (seq : Nat) (body : List Nat)
    (h : body.length ≤ MAX_BODY_SIZE) :
    Message.body_slice ⟨mkBuffer seq body⟩ = body := by
  rw [Message.body_slice, Message.get_end_index, get_body_size_mkBuffer seq body h]
  rw [mkBuffer_take_frame]
  simp [messageFrame]

theorem as_slice_mkBuffer (seq : Nat) (body : List Nat)
    (h : body.length ≤ MAX_BODY_SIZE) :
    Message.as_slice ⟨mkBuffer seq body⟩ = encodeFrame seq body := by
  rw [Message.as_slice, Message.get_end_index, get_body_size_mkBuffer seq body h]
  rw [mkBuffer]
  exact List.take_left' (by rw [encodeFrame_length]; omega)

/-- Decoding the buffer built by `Message::new` succeeds and returns the
message unchanged: the stored checksum is exactly the recomputed one. -/
theorem tryFrom_mkBuffer (seq : Nat) (body : List Nat)
    (h : body.length ≤ MAX_BODY_SIZE) :
    Message.tryFrom (mkBuffer seq body) = some (.ok ⟨mkBuffer seq body⟩) := by
  rw [Message.tryFrom]
  simp only [mkBuffer_body_size seq body h, mkBuffer_getElem?_checksum,
    mkBuffer_take_frame]
  simp

theorem encodeFrame_getD_two (seq : Nat) (body rest : List Nat) :
    (encodeFrame seq body ++ rest).getD 2 0 = body.length % 65536 / 256 := by
  simp [encodeFrame, messageFrame]

theorem encodeFrame_getD_three (seq : Nat) (body rest : List Nat) :
    (encodeFrame seq body ++ rest).getD 3 0 = body.length % 65536 % 256 := by
  simp [encodeFrame, messageFrame]

/-- Declared body size read back from an encoded frame on the wire. -/
theorem encodeFrame_body_size (seq : Nat) (body rest : List Nat)
    (h : body.length ≤ MAX_BODY_SIZE) :
    256 * ((encodeFrame seq body ++ rest).getD 2 0)
      + (encodeFrame seq body ++ rest).getD 3 0 = body.length := by
  rw [encodeFrame_getD_two, encodeFrame_getD_three]
  simp [MAX_BODY_SIZE] at h
  rw [Nat.mod_eq_of_lt (by omega)]
  exact Nat.div_add_mod _ 256

/-- Reading a message from a stream that starts with an encoded frame
consumes exactly that frame, succeeds, and yields the same message that
`Message::new` produced. -/
theorem read_message_encode (seq : Nat) (rbody rest : List Nat)
    (h : rbody.length ≤ MAX_BODY_SIZE) :
    read_message (encodeFrame seq rbody ++ rest) =
      some (.ok (⟨mkBuffer seq rbody⟩, rest)) := by
  have hmax : rbody.length ≤ 275 := h
  have hlen : (encodeFrame seq rbody ++ rest).length = rbody.length + 6 + rest.length := by
    simp [encodeFrame_length]
  rw [read_message]
  simp only [encodeFrame_body_size seq rbody rest h, hlen]
  rw [if_neg (by omega)]
  rw [if_neg (by simp only [MAX_SIZE, MAX_BODY_SIZE]; omega)]
  rw [if_neg (by omega)]
  have htake : (encodeFrame seq rbody ++ rest).take (5 + rbody.length + 1) = encodeFrame seq rbody :=
    List.take_left' (by rw [encodeFrame_length]; omega)
  have hdrop : (encodeFrame seq rbody ++ rest).drop (5 + rbody.length + 1) = rest :=
    List.drop_left' (by rw [encodeFrame_length]; omega)
  have hpad : MAX_SIZE - (5 + rbody.length + 1) = MAX_SIZE - (rbody.length + 6) := by omega
  rw [htake, hdrop, hpad, ← mkBuffer, tryFrom_mkBuffer seq rbody h]

/-- `command` on a session whose device answers with one complete encoded
frame: the exchange reduces to the validation of that decoded frame, with
the request frame appended to the outbound trace, the response consumed
from the inbound stream and the sequence counter stepped. -/
theorem command_frame (prog : STK500v2) (body : List Nat) (cmd rseq : Nat)
    (rbody rest : List Nat)
    (hb : body[0]? = some cmd) (hblen : body.length ≤ MAX_BODY_SIZE)
    (hrlen : rbody.length ≤ MAX_BODY_SIZE)
    (hin : prog.port.inbound = encodeFrame rseq rbody ++ rest) :
    prog.command body =
      STK500v2.checkResponse prog.sequencer.count cmd ⟨mkBuffer rseq rbody⟩
        ⟨⟨rest, prog.port.outbound ++ [encodeFrame prog.sequencer.count body]⟩,
          ⟨(prog.sequencer.count + 1) % 256⟩, prog.specs⟩ := by
  obtain ⟨⟨inb, outb⟩, ⟨cnt⟩, sp⟩ := prog
  simp only at hin
  subst hin
  simp only [STK500v2.command, SequenceGenerator.next, hb,
    new_eq _ _ hblen, STK500v2.write_message, read_message_encode _ _ _ hrlen,
    as_slice_mkBuffer _ _ hblen]

/-- Successful validation of a response frame whose body starts with the
sent command byte and an ok status. -/
theorem checkResponse_mkBuffer_ok (rseq cmd : Nat) (rbody : List Nat)
    (prog2 : STK500v2) (hrlen : rbody.length ≤ MAX_BODY_SIZE)
    (h0 : rbody[0]? = some cmd) (h1 : rbody[1]? = some 0) :
    STK500v2.checkResponse rseq cmd ⟨mkBuffer rseq rbody⟩ prog2 =
      some (.ok ⟨mkBuffer rseq rbody⟩, prog2) := by
  simp [STK500v2.checkResponse, get_sequence_mkBuffer,
    body_slice_mkBuffer _ _ hrlen, h0, h1]

/-- A full successful exchange: matching sequence, matching answer id, ok
status.  The response message, the updated traces and the stepped counter
are all pinned down. -/
theorem command_ok (prog : STK500v2) (body : List Nat) (cmd : Nat)
    (rbody rest : List Nat)
    (hb : body[0]? = some cmd) (hblen : body.length ≤ MAX_BODY_SIZE)
    (hrlen : rbody.length ≤ MAX_BODY_SIZE)
    (hin : prog.port.inbound = encodeFrame prog.sequencer.count rbody ++ rest)
    (h0 : rbody[0]? = some cmd) (h1 : rbody[1]? = some 0) :
    prog.command body =
      some (.ok ⟨mkBuffer prog.sequencer.count rbody⟩,
        ⟨⟨rest, prog.port.outbound ++ [encodeFrame prog.sequencer.count body]⟩,
          ⟨(prog.sequencer.count + 1) % 256⟩, prog.specs⟩) := by
  rw [command_frame prog body cmd prog.sequencer.count rbody rest hb hblen hrlen hin,
    checkResponse_mkBuffer_ok _ _ _ _ hrlen h0 h1]

/-- One successful read-flash page exchange against a device answering with
an ok frame that carries page `d` after the answer id and status bytes. -/
theorem read_flash_command_ok (cnt : Nat) (d rest : List Nat)
    (outb : List (List Nat)) (sp : Specs) (s : Nat)
    (hs : s + 3 ≤ MAX_BODY_SIZE) (hdlen : d.length = s + 1) :
    IspMode.read_flash_command
        ⟨⟨⟨encodeFrame cnt (0x14 :: 0 :: d) ++ rest, outb⟩, ⟨cnt⟩, sp⟩⟩ (s + 1) =
      some (.ok d,
        ⟨⟨⟨rest, outb ++ [encodeFrame cnt
              [0x14, (s + 1) % 65536 / 256, (s + 1) % 65536 % 256, 0x20]]⟩,
          ⟨(cnt + 1) % 256⟩, sp⟩⟩) := by
  have hrlen : (0x14 :: 0 :: d).length ≤ MAX_BODY_SIZE := by
    simp only [List.length_cons, hdlen, MAX_BODY_SIZE]
    simp only [MAX_BODY_SIZE] at hs
    omega
  simp only [IspMode.read_flash_command]
  rw [command_ok _ _ 0x14 (0x14 :: 0 :: d) rest (by simp) (by simp [MAX_BODY_SIZE])
    hrlen rfl (by simp) (by simp)]
  simp only [body_slice_mkBuffer _ _ hrlen, List.length_cons, hdlen]
  rw [if_pos (by omega)]
  simp only [List.drop_succ_cons, List.drop_zero]
  rw [← hdlen, List.take_length]

/-- The page loop against a well-behaved device: every page command
succeeds, the pages land in buffer order, the loop writes exactly one
request frame per page and steps the sequence counter once per page,
consuming the whole response stream. -/
theorem readFlashPages_spec (s : Nat) (hs : s + 3 ≤ MAX_BODY_SIZE) :
    ∀ (datas : List (List Nat)) (isp : IspMode),
      isp.prog.sequencer.count < 256 →
      (∀ d ∈ datas, d.length = s + 1) →
      isp.prog.port.inbound = readFlashResponses isp.prog.sequencer.count datas →
      IspMode.readFlashPages s isp (datas.length * (s + 1)) =
        some (.ok datas.flatten,
          ⟨⟨⟨[], isp.prog.port.outbound
                ++ readFlashSent (s + 1) isp.prog.sequencer.count datas.length⟩,
            ⟨(isp.prog.sequencer.count + datas.length) % 256⟩, isp.prog.specs⟩⟩) := by
  intro datas
  induction datas with
  | nil =>
    intro isp hc _hd hin
    obtain ⟨⟨⟨inb, outb⟩, ⟨cnt⟩, sp⟩⟩ := isp
    simp only [readFlashResponses] at hin
    simp only at hin hc ⊢
    subst hin
    rw [IspMode.readFlashPages]
    simp [readFlashSent, Nat.mod_eq_of_lt hc]
  | cons d ds ih =>
    intro isp hc hd hin
    obtain ⟨⟨⟨inb, outb⟩, ⟨cnt⟩, sp⟩⟩ := isp
    simp only at hin hc ⊢
    subst hin
    have hdlen : d.length = s + 1 := hd d (by simp)
    have hpos : 0 < (d :: ds).length * (s + 1) :=
      Nat.mul_pos (by simp) (Nat.succ_pos s)
    have hge : s + 1 ≤ (d :: ds).length * (s + 1) := by
      calc s + 1 = 1 * (s + 1) := (Nat.one_mul _).symm
        _ ≤ (d :: ds).length * (s + 1) := Nat.mul_le_mul_right _ (by simp)
    rw [IspMode.readFlashPages, dif_neg (by omega), dif_neg (by omega)]
    simp only [readFlashResponses]
    rw [read_flash_command_ok cnt d _ outb sp s hs hdlen]
    have hstep := ih ⟨⟨⟨readFlashResponses ((cnt + 1) % 256) ds,
          outb ++ [encodeFrame cnt
            [0x14, (s + 1) % 65536 / 256, (s + 1) % 65536 % 256, 0x20]]⟩,
          ⟨(cnt + 1) % 256⟩, sp⟩⟩
        (Nat.mod_lt _ (by omega)) (fun x hx => hd x (List.mem_cons_of_mem d hx)) rfl
    simp only at hstep
    have hcnt : ((cnt + 1) % 256 + ds.length) % 256 = (cnt + (ds.length + 1)) % 256 := by
      rw [Nat.mod_add_mod]
      congr 1
      omega
    simp only [hcnt] at hstep
    simp only [List.flatten_cons, List.length_cons, readFlashSent]
    have hrem2 : (ds.length + 1) * (s + 1) - (s + 1) = ds.length * (s + 1) := by
      simp [Nat.succ_mul]
    rw [hrem2, hstep]
    simp [List.append_assoc]

/-- Loading start address 0 against a device answering with an ok frame:
the request is the load-address opcode followed by the address as
big-endian `u32`. -/
theorem load_address_zero_ok (cnt : Nat) (rest : List Nat)
    (outb : List (List Nat)) (sp : Specs) :
    IspMode.load_address ⟨⟨⟨encodeFrame cnt [6, 0] ++ rest, outb⟩, ⟨cnt⟩, sp⟩⟩ 0 =
      some (.ok (),
        ⟨⟨⟨rest, outb ++ [encodeFrame cnt [6, 0, 0, 0, 0]]⟩, ⟨(cnt + 1) % 256⟩, sp⟩⟩) := by
  simp only [IspMode.load_address]
  have haddr : ([6, 0 % 4294967296 / 16777216 % 256, 0 % 4294967296 / 65536 % 256,
      0 % 4294967296 / 256 % 256, 0 % 4294967296 % 256] : List Nat) = [6, 0, 0, 0, 0] := by
    norm_num
  rw [haddr]
  rw [command_ok _ _ 6 [6, 0] rest (by simp) (by simp [MAX_BODY_SIZE])
    (by simp [MAX_BODY_SIZE]) rfl (by simp) (by simp)]

/-- One request frame is sent per page. -/
theorem readFlashSent_length (size : Nat) :
    ∀ (n c : Nat), (readFlashSent size c n).length = n := by
  intro n
  induction n with
  | zero => intro c; rfl
  | succ m ih => intro c; simp [readFlashSent, ih]

/-- In a flattening of equal-length pages, the `k`-th size-sized slice is
the `k`-th page. -/
theorem flatten_slice (sz : Nat) :
    ∀ (datas : List (List Nat)) (k : Nat),
      (∀ d ∈ datas, d.length = sz) → k < datas.length →
      ((datas.flatten).drop (k * sz)).take sz = datas.getD k [] := by
  intro datas
  induction datas with
  | nil =>
    intro k _ hk
    simp at hk
  | cons d ds ih =>
    intro k hlen hk
    match k with
    | 0 =>
      simp only [Nat.zero_mul, List.drop_zero, List.flatten_cons, List.getD_cons_zero]
      exact List.take_left' (hlen d (by simp))
    | k + 1 =>
      have hd : d.length = sz := hlen d (by simp)
      simp only [List.flatten_cons, List.getD_cons_succ]
      have hidx : (k + 1) * sz = d.length + k * sz := by
        rw [hd]
        ring
      rw [hidx, List.drop_append]
      exact ih k (fun x hx => hlen x (List.mem_cons_of_mem d hx)) (by simp at hk; omega)

/-- C6: `read_flash` over a destination whose length is `n` pages loads the
starting address exactly once, then issues exactly `len / page_size`
read-flash sub-commands in order, the `k`-th payload landing in the `k`-th
consecutive page-sized slice of the result. -/
theorem c6_read_flash_paging
    (datas : List (List Nat)) (isp : IspMode) (s : Nat)
    (hpage : isp.prog.specs.flash.page_size = s + 1)
    (hs : s + 3 ≤ MAX_BODY_SIZE)
    (hc : isp.prog.sequencer.count < 256)
    (hd : ∀ d ∈ datas, d.length = s + 1)
    (hin : isp.prog.port.inbound =
      encodeFrame isp.prog.sequencer.count [6, 0]
        ++ readFlashResponses ((isp.prog.sequencer.count + 1) % 256) datas) :
    isp.flash_read (datas.length * (s + 1)) =
      some (.ok datas.flatten,
        ⟨⟨⟨[], isp.prog.port.outbound
              ++ encodeFrame isp.prog.sequencer.count [6, 0, 0, 0, 0]
              :: readFlashSent (s + 1) ((isp.prog.sequencer.count + 1) % 256) datas.length⟩,
          ⟨(isp.prog.sequencer.count + 1 + datas.length) % 256⟩, isp.prog.specs⟩⟩)
    ∧ (readFlashSent (s + 1) ((isp.prog.sequencer.count + 1) % 256) datas.length).length
        = datas.length * (s + 1) / (s + 1)
    ∧ ∀ k, k < datas.length →
        ((datas.flatten).drop (k * (s + 1))).take (s + 1) = datas.getD k [] := by
  obtain ⟨⟨⟨inb, outb⟩, ⟨cnt⟩, sp⟩⟩ := isp
  simp only at hpage hc hin ⊢
  subst hin
  refine ⟨?_, ?_, ?_⟩
  · have hspec := readFlashPages_spec s hs datas
      ⟨⟨⟨readFlashResponses ((cnt + 1) % 256) datas,
          outb ++ [encodeFrame cnt [6, 0, 0, 0, 0]]⟩,
        ⟨(cnt + 1) % 256⟩, sp⟩⟩ (Nat.mod_lt _ (by omega)) hd rfl
    simp only at hspec
    simp only [IspMode.flash_read, load_address_zero_ok cnt _ outb sp, hpage]
    rw [hspec]
    simp [Nat.mod_add_mod, List.append_assoc]
  · rw [readFlashSent_length, Nat.mul_div_cancel _ (Nat.succ_pos s)]
  · exact fun k hk => flatten_slice (s + 1) datas k hd hk

theorem command_decoded_ok (prog : STK500v2) (body : List Nat) (cmd : Nat)
    (m : Message) (rest : List Nat)
    (hb : body[0]? = some cmd) (hblen : body.length ≤ MAX_BODY_SIZE)
    (hread : read_message prog.port.inbound = some (.ok (m, rest)))
    (hseq : m.get_sequence = prog.sequencer.count)
    (h0 : m.body_slice[0]? = some cmd) (h1 : m.body_slice[1]? = some 0) :
    prog.command body =
      some (.ok m,
        ⟨⟨rest, prog.port.outbound ++ [encodeFrame prog.sequencer.count body]⟩,
          ⟨(prog.sequencer.count + 1) % 256⟩, prog.specs⟩) := by
  obtain ⟨⟨inb, outb⟩, ⟨cnt⟩, sp⟩ := prog
  simp only at hread hseq ⊢
  simp only [STK500v2.command, SequenceGenerator.next, hb, new_eq _ _ hblen,
    STK500v2.write_message, as_slice_mkBuffer _ _ hblen, hread,
    STK500v2.checkResponse, hseq, h0, h1]
  simp

/-- C1 (counterexample): two responses that differ only in their non-ok
status byte (0xC0 vs 0x80) make `command()` return the very same error
value `ErrorKind::StatusError`; the returned error therefore cannot carry
the offending status byte the claim says it carries. -/
theorem c1_counterexample :
    ((progResp 0 [1, 0xC0]).command [1]).map Prod.fst = some (.error .StatusError)
    ∧ ((progResp 0 [1, 0x80]).command [1]).map Prod.fst = some (.error .StatusError)
    ∧ (0xC0 : Nat) ≠ 0x80 :=
  ⟨rfl, rfl, by decide⟩

/-- C1 (amended): when `command()` receives a checksum- and sequence-valid
response whose first body byte matches the sent command byte but whose
second body byte is a non-ok status, it fails with the payload-free
`ErrorKind::StatusError`; the offending status byte is not carried. -/
theorem c1_status_error (prog : STK500v2) (body : List Nat) (cmd : Nat)
    (rbody rest : List Nat) (st : Nat)
    (hb : body[0]? = some cmd) (hblen : body.length ≤ MAX_BODY_SIZE)
    (hrlen : rbody.length ≤ MAX_BODY_SIZE)
    (hin : prog.port.inbound = encodeFrame prog.sequencer.count rbody ++ rest)
    (h0 : rbody[0]? = some cmd) (h1 : rbody[1]? = some st) (hst : st ≠ 0) :
    (prog.command body).map Prod.fst = some (.error .StatusError) := by
  rw [command_frame prog body cmd prog.sequencer.count rbody rest hb hblen hrlen hin]
  simp [STK500v2.checkResponse, get_sequence_mkBuffer,
    body_slice_mkBuffer _ _ hrlen, h0, h1, hst]

theorem c1_status_error_witness :
    ((progResp 0 [1, 0xC0]).command [1]).map Prod.fst
      = some (.error ErrorKind.StatusError) :=
  c1_status_error (progResp 0 [1, 0xC0]) [1] 1 [1, 0xC0] [] 0xC0
    rfl (by decide) (by decide) rfl rfl rfl (by decide)

/-- C2: for every sequence byte and body of length at most 275, decoding
the encoded frame succeeds and yields the same message: its sequence is
`seq` and its body is `body`, both for the in-memory buffer
(`TryFrom<MessageBuffer>`) and for the frame read back off the wire. -/
theorem c2_roundtrip (seq : Nat) (body : List Nat)
    (_hseq : seq < 256) (_hbytes : ∀ b ∈ body, b < 256)
    (hlen : body.length ≤ MAX_BODY_SIZE) :
    Message.new seq body = some ⟨mkBuffer seq body⟩
    ∧ Message.tryFrom (mkBuffer seq body) = some (.ok ⟨mkBuffer seq body⟩)
    ∧ Message.get_sequence ⟨mkBuffer seq body⟩ = seq
    ∧ Message.body_slice ⟨mkBuffer seq body⟩ = body
    ∧ read_message (Message.as_slice ⟨mkBuffer seq body⟩)
        = some (.ok (⟨mkBuffer seq body⟩, [])) := by
  refine ⟨new_eq seq body hlen, tryFrom_mkBuffer seq body hlen,
    get_sequence_mkBuffer seq body, body_slice_mkBuffer seq body hlen, ?_⟩
  rw [as_slice_mkBuffer seq body hlen, ← List.append_nil (encodeFrame seq body),
    read_message_encode seq body [] hlen]

theorem c2_roundtrip_witness :
    Message.new 1 [89, 100, 78, 109] = some ⟨mkBuffer 1 [89, 100, 78, 109]⟩
    ∧ Message.tryFrom (mkBuffer 1 [89, 100, 78, 109])
        = some (.ok ⟨mkBuffer 1 [89, 100, 78, 109]⟩)
    ∧ Message.get_sequence ⟨mkBuffer 1 [89, 100, 78, 109]⟩ = 1
    ∧ Message.body_slice ⟨mkBuffer 1 [89, 100, 78, 109]⟩ = [89, 100, 78, 109]
    ∧ read_message (Message.as_slice ⟨mkBuffer 1 [89, 100, 78, 109]⟩)
        = some (.ok (⟨mkBuffer 1 [89, 100, 78, 109]⟩, [])) :=
  c2_roundtrip 1 [89, 100, 78, 109] (by decide) (by decide) (by decide)

/-- C3: the three response checks of `command()` run in the fixed order
sequence, answer id, status: a sequence mismatch wins even over a valid
status, then a mismatched leading body byte, then a non-ok status; when all
pass, the validated response message is returned. -/
theorem c3_check_order (prog : STK500v2) (body : List Nat) (cmd rseq : Nat)
    (rbody rest : List Nat)
    (hb : body[0]? = some cmd) (hblen : body.length ≤ MAX_BODY_SIZE)
    (hrlen : rbody.length ≤ MAX_BODY_SIZE)
    (hin : prog.port.inbound = encodeFrame rseq rbody ++ rest) :
    (rseq ≠ prog.sequencer.count →
      (prog.command body).map Prod.fst = some (.error .SequenceError))
    ∧ (∀ b0, rseq = prog.sequencer.count → rbody[0]? = some b0 → b0 ≠ cmd →
      (prog.command body).map Prod.fst = some (.error .AnswerIdError))
    ∧ (∀ b1, rseq = prog.sequencer.count → rbody[0]? = some cmd →
        rbody[1]? = some b1 → b1 ≠ 0 →
      (prog.command body).map Prod.fst = some (.error .StatusError))
    ∧ (rseq = prog.sequencer.count → rbody[0]? = some cmd → rbody[1]? = some 0 →
      (prog.command body).map Prod.fst = some (.ok ⟨mkBuffer rseq rbody⟩)) := by
  have hcmd := command_frame prog body cmd rseq rbody rest hb hblen hrlen hin
  refine ⟨?_, ?_, ?_, ?_⟩
  · intro hne
    rw [hcmd]
    simp [STK500v2.checkResponse, get_sequence_mkBuffer, Ne.symm hne]
  · intro b0 heq h0 hne
    rw [hcmd, ← heq]
    simp [STK500v2.checkResponse, get_sequence_mkBuffer,
      body_slice_mkBuffer _ _ hrlen, h0, Ne.symm hne]
  · intro b1 heq h0 h1 hne
    rw [hcmd, ← heq]
    simp [STK500v2.checkResponse, get_sequence_mkBuffer,
      body_slice_mkBuffer _ _ hrlen, h0, h1, hne]
  · intro heq h0 h1
    rw [hcmd, ← heq]
    simp [STK500v2.checkResponse, get_sequence_mkBuffer,
      body_slice_mkBuffer _ _ hrlen, h0, h1]

theorem c3_check_order_witness :
    ((progResp 5 [1, 0]).command [1]).map Prod.fst = some (.error ErrorKind.SequenceError)
    ∧ ((progResp 0 [2, 0]).command [1]).map Prod.fst = some (.error ErrorKind.AnswerIdError)
    ∧ ((progResp 0 [1, 0xC9]).command [1]).map Prod.fst = some (.error ErrorKind.StatusError)
    ∧ ((progResp 0 [1, 0, 7]).command [1]).map Prod.fst = some (.ok ⟨mkBuffer 0 [1, 0, 7]⟩) :=
  ⟨(c3_check_order (progResp 5 [1, 0]) [1] 1 5 [1, 0] []
      rfl (by decide) (by decide) rfl).1 (by decide),
   (c3_check_order (progResp 0 [2, 0]) [1] 1 0 [2, 0] []
      rfl (by decide) (by decide) rfl).2.1 2 rfl rfl (by decide),
   (c3_check_order (progResp 0 [1, 0xC9]) [1] 1 0 [1, 0xC9] []
      rfl (by decide) (by decide) rfl).2.2.1 0xC9 rfl rfl rfl (by decide),
   (c3_check_order (progResp 0 [1, 0, 7]) [1] 1 0 [1, 0, 7] []
      rfl (by decide) (by decide) rfl).2.2.2 rfl rfl rfl⟩

/-- C4: the encoder lays a frame out as START 0x1B, the sequence byte, the
body length as big-endian `u16`, TOKEN 0x0E, the body, then the XOR
checksum of everything before it, for `5 + len + 1` bytes in all; the
checksum of `[2, 55, 22, 78]` is 109. -/
theorem c4_encode_layout (seq : Nat) (body : List Nat)
    (hlen : body.length ≤ MAX_BODY_SIZE) :
    Message.new seq body = some ⟨mkBuffer seq body⟩
    ∧ Message.as_slice ⟨mkBuffer seq body⟩
        = 0x1B :: seq :: (body.length / 256) :: (body.length % 256) :: 0x0E :: (body
            ++ [calc_checksum (0x1B :: seq :: (body.length / 256)
                  :: (body.length % 256) :: 0x0E :: body)])
    ∧ (Message.as_slice ⟨mkBuffer seq body⟩).length = 5 + body.length + 1
    ∧ calc_checksum [2, 55, 22, 78] = 109 := by
  have hmod : body.length % 65536 = body.length := by
    simp only [MAX_BODY_SIZE] at hlen
    exact Nat.mod_eq_of_lt (by omega)
  refine ⟨new_eq seq body hlen, ?_, ?_, by decide⟩
  · rw [as_slice_mkBuffer seq body hlen]
    simp [encodeFrame, messageFrame, hmod]
  · rw [as_slice_mkBuffer seq body hlen, encodeFrame_length]
    omega

theorem c4_encode_layout_witness :
    Message.new 2 [3, 4] = some ⟨mkBuffer 2 [3, 4]⟩
    ∧ Message.as_slice ⟨mkBuffer 2 [3, 4]⟩
        = 0x1B :: 2 :: (([3, 4] : List Nat).length / 256)
            :: (([3, 4] : List Nat).length % 256) :: 0x0E :: ([3, 4]
            ++ [calc_checksum (0x1B :: 2 :: (([3, 4] : List Nat).length / 256)
                  :: (([3, 4] : List Nat).length % 256) :: 0x0E :: [3, 4])])
    ∧ (Message.as_slice ⟨mkBuffer 2 [3, 4]⟩).length = 5 + ([3, 4] : List Nat).length + 1
    ∧ calc_checksum [2, 55, 22, 78] = 109 :=
  c4_encode_layout 2 [3, 4] (by decide)

/-- C5: whenever the trailing checksum byte of a frame buffer with an
in-bounds declared body length differs from the XOR of the preceding
bytes, decoding fails with `ChecksumError` and no message is produced; in
particular, replacing the trailing checksum byte of any validly encoded
frame with a wrong value always fails that way. -/
theorem c5_checksum_mismatch :
    (∀ (buffer : List Nat) (c : Nat),
      256 * buffer.getD 2 0 + buffer.getD 3 0 ≤ MAX_BODY_SIZE →
      buffer[5 + (256 * buffer.getD 2 0 + buffer.getD 3 0)]? = some c →
      c ≠ calc_checksum (buffer.take (5 + (256 * buffer.getD 2 0 + buffer.getD 3 0))) →
      Message.tryFrom buffer = some (.error .ChecksumError))
    ∧ (∀ (seq c' : Nat) (body : List Nat),
      body.length ≤ MAX_BODY_SIZE →
      c' ≠ calc_checksum (messageFrame seq body) →
      Message.tryFrom
          (messageFrame seq body ++ c' :: List.replicate (MAX_BODY_SIZE - body.length) 0)
        = some (.error .ChecksumError)) := by
  have part1 : ∀ (buffer : List Nat) (c : Nat),
      buffer[5 + (256 * buffer.getD 2 0 + buffer.getD 3 0)]? = some c →
      c ≠ calc_checksum (buffer.take (5 + (256 * buffer.getD 2 0 + buffer.getD 3 0))) →
      Message.tryFrom buffer = some (.error .ChecksumError) := by
    intro buffer c hget hne
    simp only [Message.tryFrom, hget]
    rw [if_pos hne]
  refine ⟨fun buffer c _ hget hne => part1 buffer c hget hne, ?_⟩
  intro seq c' body hlen hne
  have hg2 : (messageFrame seq body
      ++ c' :: List.replicate (MAX_BODY_SIZE - body.length) 0).getD 2 0
      = body.length % 65536 / 256 := by
    simp [messageFrame]
  have hg3 : (messageFrame seq body
      ++ c' :: List.replicate (MAX_BODY_SIZE - body.length) 0).getD 3 0
      = body.length % 65536 % 256 := by
    simp [messageFrame]
  have hmod : body.length % 65536 = body.length := by
    simp only [MAX_BODY_SIZE] at hlen
    exact Nat.mod_eq_of_lt (by omega)
  have hbs : 256 * ((messageFrame seq body
        ++ c' :: List.replicate (MAX_BODY_SIZE - body.length) 0).getD 2 0)
      + (messageFrame seq body
        ++ c' :: List.replicate (MAX_BODY_SIZE - body.length) 0).getD 3 0
      = body.length := by
    rw [hg2, hg3, hmod]
    exact Nat.div_add_mod _ 256
  refine part1 _ c' ?_ ?_
  · rw [hbs, List.getElem?_append_right (by rw [messageFrame_length]; omega),
      messageFrame_length]
    have h0 : 5 + body.length - (body.length + 5) = 0 := by omega
    rw [h0]
    simp
  · rw [hbs, List.take_left' (by rw [messageFrame_length]; omega)]
    exact hne

theorem c5_checksum_mismatch_witness :
    Message.tryFrom (messageFrame 0 [1, 0]
        ++ 99 :: List.replicate (MAX_BODY_SIZE - ([1, 0] : List Nat).length) 0)
      = some (.error ErrorKind.ChecksumError) :=
  c5_checksum_mismatch.2 0 99 [1, 0] (by decide) (by decide)

/-- C7 (counterexample): a sign-on response whose payload merely ends in
the identifier `"STK500_2"` (here with one junk byte between the header
bytes and the identifier) is not mapped to the `STK500_2` variant: the code
compares only `body_slice()[3..]` as a whole, so this payload fails with
`UnknownProgrammer` although it ends in a recognized identifier. -/
theorem c7_counterexample :
    ((progResp 0 ([1, 0, 8, 0] ++ STK500_2_ID)).read_programmer_signature).map Prod.fst
      = some (.error .UnknownProgrammer)
    ∧ ([1, 0, 8, 0] ++ STK500_2_ID).drop
        (([1, 0, 8, 0] ++ STK500_2_ID).length - STK500_2_ID.length) = STK500_2_ID :=
  ⟨rfl, rfl⟩

/-- C7 (amended): `sign_on` decodes the response bytes after the first
three body bytes as UTF-8 and maps them to a programmer variant: exactly
`"STK500_2"` there yields `STK500_2`, exactly `"AVRISP_2"` yields
`AVRISP_2`, any other decoded string fails with `UnknownProgrammer`, and a
payload that is not valid UTF-8 fails with `FromUtf8Error`. -/
theorem c7_sign_on_variant (prog : STK500v2) (rbody rest : List Nat)
    (hrlen : rbody.length ≤ MAX_BODY_SIZE)
    (hin : prog.port.inbound = encodeFrame prog.sequencer.count rbody ++ rest)
    (h0 : rbody[0]? = some 1) (h1 : rbody[1]? = some 0)
    (hlen3 : 3 ≤ rbody.length) :
    (rbody.drop 3 = STK500_2_ID →
      (prog.read_programmer_signature).map Prod.fst = some (.ok .STK500_V2))
    ∧ (rbody.drop 3 = AVRISP_2_ID →
      (prog.read_programmer_signature).map Prod.fst = some (.ok .AVRISP_2))
    ∧ (∀ s, utf8_decode (rbody.drop 3) = some s →
        s ≠ STK500_2_ID → s ≠ AVRISP_2_ID →
      (prog.read_programmer_signature).map Prod.fst = some (.error .UnknownProgrammer))
    ∧ (utf8_decode (rbody.drop 3) = none →
      (prog.read_programmer_signature).map Prod.fst = some (.error .FromUtf8Error)) := by
  have hcmd := command_ok prog [1] 1 rbody rest rfl (by decide) hrlen hin h0 h1
  refine ⟨?_, ?_, ?_, ?_⟩
  · intro hdrop
    simp only [STK500v2.read_programmer_signature, hcmd,
      body_slice_mkBuffer _ _ hrlen]
    rw [if_neg (by omega), hdrop]
    have hstk : utf8_decode STK500_2_ID = some STK500_2_ID := by decide
    rw [hstk]
    simp [Variant.tryFromString]
  · intro hdrop
    simp only [STK500v2.read_programmer_signature, hcmd,
      body_slice_mkBuffer _ _ hrlen]
    rw [if_neg (by omega), hdrop]
    have havr : utf8_decode AVRISP_2_ID = some AVRISP_2_ID := by decide
    rw [havr]
    simp [Variant.tryFromString, STK500_2_ID, AVRISP_2_ID]
  · intro s hs hne1 hne2
    simp only [STK500v2.read_programmer_signature, hcmd,
      body_slice_mkBuffer _ _ hrlen]
    rw [if_neg (by omega), hs]
    simp [Variant.tryFromString, hne1, hne2]
  · intro hbad
    simp only [STK500v2.read_programmer_signature, hcmd,
      body_slice_mkBuffer _ _ hrlen]
    rw [if_neg (by omega), hbad]
    simp

theorem c7_sign_on_variant_witness :
    ((progResp 0 ([1, 0, 8] ++ STK500_2_ID)).read_programmer_signature).map Prod.fst
      = some (.ok Variant.STK500_V2)
    ∧ ((progResp 0 [1, 0, 8, 0xFF]).read_programmer_signature).map Prod.fst
      = some (.error ErrorKind.FromUtf8Error) :=
  ⟨(c7_sign_on_variant (progResp 0 ([1, 0, 8] ++ STK500_2_ID)) ([1, 0, 8] ++ STK500_2_ID)
      [] (by decide) (by rfl) (by rfl) (by rfl) (by decide)).1 (by rfl),
   (c7_sign_on_variant (progResp 0 [1, 0, 8, 0xFF]) [1, 0, 8, 0xFF]
      [] (by decide) (by rfl) (by rfl) (by rfl) (by decide)).2.2.2 (by rfl)⟩

/-- C8: the sequence generator starts at 0, yields the current count on
every call without ever failing, and wraps from 255 back to 0, so the
`(256 + n)`-th value equals the `n`-th. -/
theorem c8_sequence_generator (n : Nat) :
    seqNth (256 + n) = seqNth n ∧ seqNth 0 = some 0 ∧ seqNth 1 = some 1
    ∧ (seqNth n).isSome = true := by
  have key : ∀ m : Nat, (genAt m).count = m % 256 := by
    intro m
    induction m with
    | zero => rfl
    | succ k ih =>
      show ((genAt k).next).2.count = (k + 1) % 256
      rw [SequenceGenerator.next]
      simp [ih, Nat.mod_add_mod]
  refine ⟨?_, rfl, rfl, ?_⟩
  · rw [seqNth, seqNth, SequenceGenerator.next, SequenceGenerator.next]
    simp [key, Nat.add_mod_left]
  · rw [seqNth, SequenceGenerator.next]
    rfl

/-- C9: decoding is not total: a declared body length above 275 drives the
checksum index (for `TryFrom<MessageBuffer>`) or the buffer slice (for
`read_message`) past the fixed 281-byte array, a panic rather than an error
value. -/
theorem c9_oversize_panics :
    (∀ buffer : List Nat, buffer.length = MAX_SIZE →
      MAX_BODY_SIZE < 256 * buffer.getD 2 0 + buffer.getD 3 0 →
      Message.tryFrom buffer = none)
    ∧ (∀ input : List Nat, 5 ≤ input.length →
      MAX_BODY_SIZE < 256 * input.getD 2 0 + input.getD 3 0 →
      read_message input = none) := by
  constructor
  · intro buffer hlen hbs
    simp only [Message.tryFrom]
    have hnone : buffer[5 + (256 * buffer.getD 2 0 + buffer.getD 3 0)]? = none := by
      refine List.getElem?_eq_none ?_
      simp only [MAX_BODY_SIZE] at hbs
      simp only [hlen, MAX_SIZE, MAX_BODY_SIZE]
      omega
    rw [hnone]
  · intro input hlen hbs
    rw [read_message]
    rw [if_neg (by omega)]
    rw [if_pos (by simp only [MAX_BODY_SIZE] at hbs; simp only [MAX_SIZE, MAX_BODY_SIZE]; omega)]

theorem c9_oversize_panics_witness :
    Message.tryFrom (27 :: 0 :: 1 :: 21 :: 14 :: List.replicate 276 0) = none
    ∧ read_message [0, 0, 255, 255, 0] = none :=
  ⟨c9_oversize_panics.1 (27 :: 0 :: 1 :: 21 :: 14 :: List.replicate 276 0)
      (by decide) (by decide),
   c9_oversize_panics.2 [0, 0, 255, 255, 0] (by decide) (by decide)⟩

/-- C10: `command()` assumes every checksum-valid response carries at least
2 body bytes: with a decoded 0-byte body the answer-id check
(`body_slice()[0]`) panics, with a 1-byte body that matches the command
byte the status check (`body_slice()[1]`) panics; the payload-extracting
`get_param` and `read_fuse` additionally panic on a 2-byte ok body when
reading `body_slice()[2]`. -/
theorem c10_short_body_panics :
    (∀ (prog : STK500v2) (body : List Nat) (cmd : Nat) (m : Message) (rest : List Nat),
      body[0]? = some cmd → body.length ≤ MAX_BODY_SIZE →
      read_message prog.port.inbound = some (.ok (m, rest)) →
      m.get_sequence = prog.sequencer.count →
      m.body_slice.length = 0 →
      prog.command body = none)
    ∧ (∀ (prog : STK500v2) (body : List Nat) (cmd : Nat) (m : Message) (rest : List Nat),
      body[0]? = some cmd → body.length ≤ MAX_BODY_SIZE →
      read_message prog.port.inbound = some (.ok (m, rest)) →
      m.get_sequence = prog.sequencer.count →
      m.body_slice[0]? = some cmd → m.body_slice.length = 1 →
      prog.command body = none)
    ∧ (∀ (prog : STK500v2) (p : Nat) (m : Message) (rest : List Nat),
      read_message prog.port.inbound = some (.ok (m, rest)) →
      m.get_sequence = prog.sequencer.count →
      m.body_slice = [3, 0] →
      prog.get_param p = none)
    ∧ (∀ (prog : STK500v2) (c : IspCommand) (m : Message) (rest : List Nat),
      read_message prog.port.inbound = some (.ok (m, rest)) →
      m.get_sequence = prog.sequencer.count →
      m.body_slice = [0x18, 0] →
      IspMode.read_fuse ⟨prog⟩ c = none) := by
  refine ⟨?_, ?_, ?_, ?_⟩
  · intro prog body cmd m rest hb hblen hread hseq hlen
    obtain ⟨⟨inb, outb⟩, ⟨cnt⟩, sp⟩ := prog
    simp only at hread hseq ⊢
    have h0 : m.body_slice[0]? = none := List.getElem?_eq_none (by omega)
    simp only [STK500v2.command, SequenceGenerator.next, hb, new_eq _ _ hblen,
      STK500v2.write_message, hread, STK500v2.checkResponse, hseq, h0]
    simp
  · intro prog body cmd m rest hb hblen hread hseq h0 hlen
    obtain ⟨⟨inb, outb⟩, ⟨cnt⟩, sp⟩ := prog
    simp only at hread hseq ⊢
    have h1 : m.body_slice[1]? = none := List.getElem?_eq_none (by omega)
    simp only [STK500v2.command, SequenceGenerator.next, hb, new_eq _ _ hblen,
      STK500v2.write_message, hread, STK500v2.checkResponse, hseq, h0, h1]
    simp
  · intro prog p m rest hread hseq hbody
    have hcmd := command_decoded_ok prog [3, p] 3 m rest (by simp)
      (by simp [MAX_BODY_SIZE]) hread hseq (by rw [hbody]; rfl) (by rw [hbody]; rfl)
    simp only [STK500v2.get_param, hcmd, hbody]
    simp
  · intro prog c m rest hread hseq hbody
    have hcmd := command_decoded_ok prog
      [0x18, prog.specs.fuse_poll_index, c.b0, c.b1, c.b2, c.b3] 0x18 m rest (by simp)
      (by simp [MAX_BODY_SIZE]) hread hseq (by rw [hbody]; rfl) (by rw [hbody]; rfl)
    simp only [IspMode.read_fuse, hcmd, hbody]
    simp

theorem c10_short_body_panics_witness :
    STK500v2.command (progResp 0 []) [9] = none
    ∧ STK500v2.command (progResp 0 [9]) [9] = none
    ∧ STK500v2.get_param (progResp 0 [3, 0]) 5 = none
    ∧ IspMode.read_fuse ⟨progResp 0 [0x18, 0]⟩ ⟨80, 0, 0, 0⟩ = none :=
  ⟨c10_short_body_panics.1 (progResp 0 []) [9] 9 ⟨mkBuffer 0 []⟩ []
      (by rfl) (by decide) (by rfl) (by rfl) (by rfl),
   c10_short_body_panics.2.1 (progResp 0 [9]) [9] 9 ⟨mkBuffer 0 [9]⟩ []
      (by rfl) (by decide) (by rfl) (by rfl) (by rfl) (by rfl),
   c10_short_body_panics.2.2.1 (progResp 0 [3, 0]) 5 ⟨mkBuffer 0 [3, 0]⟩ []
      (by rfl) (by rfl) (by rfl),
   c10_short_body_panics.2.2.2 (progResp 0 [0x18, 0]) ⟨80, 0, 0, 0⟩
      ⟨mkBuffer 0 [0x18, 0]⟩ [] (by rfl) (by rfl) (by rfl)⟩

theorem c6_read_flash_paging_witness :
    IspMode.flash_read ispC6 (datasC6.length * (255 + 1)) =
      some (.ok datasC6.flatten,
        ⟨⟨⟨[], ispC6.prog.port.outbound
              ++ encodeFrame ispC6.prog.sequencer.count [6, 0, 0, 0, 0]
              :: readFlashSent (255 + 1) ((ispC6.prog.sequencer.count + 1) % 256)
                  datasC6.length⟩,
          ⟨(ispC6.prog.sequencer.count + 1 + datasC6.length) % 256⟩,
          ispC6.prog.specs⟩⟩)
    ∧ (readFlashSent (255 + 1) ((ispC6.prog.sequencer.count + 1) % 256)
          datasC6.length).length
        = datasC6.length * (255 + 1) / (255 + 1)
    ∧ ∀ k, k < datasC6.length →
        ((datasC6.flatten).drop (k * (255 + 1))).take (255 + 1) = datasC6.getD k [] :=
  c6_read_flash_paging datasC6 ispC6 255 (by rfl) (by decide) (by decide)
    (by decide) (by rfl)

end Avrisp



